import Mathlib

/-! The llvm-slicer driver and the LLVM data-dependence front end.

A shallow embedding of

* `tools/llvm-slicer.cpp`: `parseAnnotationOptions`, `maybe_print_statistics`,
  `parseModule` and `main`;
* `include/dg/llvm/analysis/DataDependence/DataDependence.h`:
  the inline members of `LLVMDataDependenceAnalysis`.

`main` is embedded as a function from the parsed command line and the answers of
the collaborators it calls (module reader, `ModuleWriter`, `Slicer`,
`ModuleAnnotator`, `DGDumper`) to its return value together with the ordered
list of calls it made.  Every collaborator operation that returns a value is
called at most once on each path through `main`, so one answer per operation
describes every run.  The embedding starts after `parseSlicerOptions` returned.

The members of `LLVMDataDependenceAnalysis` are embedded with assertions compiled
in: a failed `assert` ends the call with `Failure.assertion`.  The classes the
header only uses (`DataDependenceAnalysis`, `RWNode`, `Offset`) live outside the
two files and are modelled from the specification.
-/

namespace LLVMSlicer

/-! # Definitions -/

/-! ## Command line -/

/-- Values of the `llvm::cl::opt` globals of `llvm-slicer.cpp` after the command
line was parsed. -/
structure CommandLine where
  enable_debug : Bool
  should_verify_module : Bool
  remove_unused_only : Bool
  statistics : Bool
  dump_dg : Bool
  dump_dg_only : Bool
  dump_bb_only : Bool
  criteria_are_next_instr : Bool
  annotationOpts : String

/-- The fields of `SlicerOptions` that `main` reads. -/
structure SlicerOptions where
  inputFile : String
  entryFunction : String
  slicingCriteria : String
  legacySlicingCriteria : String
  legacySecondarySlicingCriteria : String

/-! ## Annotation options -/

/-- The enumerators of `LLVMDGAssemblyAnnotationWriter::AnnotationOptsT` used by
`parseAnnotationOptions`.  The enumeration is declared outside the embedded
files, so the bit masks are taken as given. -/
structure AnnotationOptsT where
  ANNOTATE_DD : Nat
  ANNOTATE_CD : Nat
  ANNOTATE_DEF : Nat
  ANNOTATE_PTR : Nat
  ANNOTATE_MEMORYACC : Nat
  ANNOTATE_SLICE : Nat

/-- One iteration of the loop of `parseAnnotationOptions`: the `if`/`else if`
chain applied to one element of the list. -/
def parseAnnotationOption (K : AnnotationOptsT) (opts : Nat) (opt : String) : Nat :=
  if opt = "dd" then opts ||| K.ANNOTATE_DD
  else if opt = "cd" ∨ opt = "cda" then opts ||| K.ANNOTATE_CD
  else if opt = "dda" ∨ opt = "du" then opts ||| K.ANNOTATE_DEF
  else if opt = "pta" then opts ||| K.ANNOTATE_PTR
  else if opt = "memacc" then opts ||| K.ANNOTATE_MEMORYACC
  else if opt = "slice" ∨ opt = "sl" ∨ opt = "slicer" then opts ||| K.ANNOTATE_SLICE
  else opts

/-- The function `parseAnnotationOptions`.  `splitList` (declared in
`dg/tools/llvm-slicer-utils.h`) is taken as given; the value-initialised
`AnnotationOptsT{}` is `0`. -/
def parseAnnotationOptions (splitList : String → List String) (K : AnnotationOptsT)
    (annot : String) : Nat :=
  if annot.isEmpty then 0
  else (splitList annot).foldl (parseAnnotationOption K) 0

/-- An option word has the flag `flag` set. -/
def hasFlag (opts flag : Nat) : Prop := opts &&& flag ≠ 0

/-- The enumerators are flags: each one is non-zero and no two share a bit. -/
def AnnotationOptsT.Independent (K : AnnotationOptsT) : Prop :=
  List.Pairwise (fun a b => a &&& b = 0)
      [K.ANNOTATE_DD, K.ANNOTATE_CD, K.ANNOTATE_DEF, K.ANNOTATE_PTR,
       K.ANNOTATE_MEMORYACC, K.ANNOTATE_SLICE]
    ∧ ∀ a ∈ [K.ANNOTATE_DD, K.ANNOTATE_CD, K.ANNOTATE_DEF, K.ANNOTATE_PTR,
       K.ANNOTATE_MEMORYACC, K.ANNOTATE_SLICE], a ≠ 0

/-- The flag a list element contributes: the right-hand side of the `|=` its
branch of `parseAnnotationOption` executes, `0` for an unrecognised element. -/
def flagOf (K : AnnotationOptsT) (opt : String) : Nat :=
  if opt = "dd" then K.ANNOTATE_DD
  else if opt = "cd" ∨ opt = "cda" then K.ANNOTATE_CD
  else if opt = "dda" ∨ opt = "du" then K.ANNOTATE_DEF
  else if opt = "pta" then K.ANNOTATE_PTR
  else if opt = "memacc" then K.ANNOTATE_MEMORYACC
  else if opt = "slice" ∨ opt = "sl" ∨ opt = "slicer" then K.ANNOTATE_SLICE
  else 0

/-! ## The driver -/

/-- Calls made by `main`, in the order of the source, with the arguments and
return values that matter.  Criteria sets (`std::set<LLVMNode *>`) are listed by
node id. -/
inductive Event where
  | DBG_ENABLE
  | parseIRFile (ok : Bool)
  | printDiagnostic
  | errs (msg : String)
  | getFunction (found : Bool)
  | printStatistics (pfx : String)
  | removeUnusedFromModule
  | saveModule (verify : Bool) (ret : Int)
  | buildDG (ok : Bool)
  | shouldAnnotate (ret : Bool)
  | getSlicingCriteriaNodes (ok : Bool) (criteria_nodes : List Nat)
  | computeDependencies
  | annotate (criteria : Option (List Nat))
  | createEmptyMain (ok : Bool)
  | cleanAndSaveModule (verify : Bool) (ret : Int)
  | mark (criteria_nodes : List Nat) (ok : Bool)
  | dumpToDot (suffix : Option String)
  | slice (ok : Bool)
  | getBasicBlock
  deriving DecidableEq, Repr

/-- Answers of the collaborators of `main` in one run. -/
structure Environment where
  /-- `splitList` of `llvm-slicer-utils.h`. -/
  splitList : String → List String
  /-- The enumerators of `AnnotationOptsT`. -/
  flags : AnnotationOptsT
  /-- Whether `parseIRFile` yields a module. -/
  parseIRFile : Bool
  /-- Whether `M->getFunction(entryFunction)` is non-null. -/
  getFunction : Bool
  /-- Return value of `writer.saveModule(verify)`. -/
  saveModule : Bool → Int
  /-- Return value of `slicer.buildDG()`. -/
  buildDG : Bool
  /-- Result of `annotator.shouldAnnotate()` for an annotator built with the given options. -/
  shouldAnnotate : Nat → Bool
  /-- Return value of `getSlicingCriteriaNodes` and the `criteria_nodes` it leaves behind. -/
  getSlicingCriteriaNodes : Bool × List Nat
  /-- Return value of `slicer.createEmptyMain()`. -/
  createEmptyMain : Bool
  /-- Return value of `writer.cleanAndSaveModule(verify)`. -/
  cleanAndSaveModule : Bool → Int
  /-- Return value of `slicer.mark(criteria_nodes)`. -/
  mark : List Nat → Bool
  /-- Return value of `slicer.slice()`. -/
  slice : Bool

/-- What a run of `main` leaves behind: its return value, the calls it made and
the final value of the global `dump_dg`. -/
structure Run where
  exit : Int
  trace : List Event
  dump_dg : Bool

/-- The function `maybe_print_statistics`: silent unless `statistics` is set.
The counts it prints are not modelled. -/
def maybe_print_statistics (statistics : Bool) (pfx : String) : List Event :=
  if !statistics then [] else [Event.printStatistics pfx]

/-- The function `parseModule`: reads the module, printing the reader's
diagnostic when there is none. -/
def parseModule (w : Environment) : Bool × List Event :=
  if !w.parseIRFile then (false, [Event.parseIRFile false, Event.printDiagnostic])
  else (true, [Event.parseIRFile true])

/-- The block `if (annotator.shouldAnnotate()) { computeDependencies(); annotate(); }`. -/
def annotateIfAsked (should : Bool) : List Event :=
  if should then
    [Event.shouldAnnotate true, Event.computeDependencies, Event.annotate none]
  else [Event.shouldAnnotate false]

/-- The function `main` of `llvm-slicer.cpp`, from the line after
`parseSlicerOptions` to its end. -/
def main (c : CommandLine) (o : SlicerOptions) (w : Environment) : Run :=
  let t0 : List Event := if c.enable_debug then [Event.DBG_ENABLE] else []
  -- dump_dg_only implies dump_dg
  let dump_dg : Bool := if c.dump_dg_only then true else c.dump_dg
  let M := parseModule w
  let t1 := t0 ++ M.2
  if !M.1 then
    ⟨1, t1 ++ [Event.errs ("Failed parsing \x27" ++ o.inputFile ++ "\x27 file:\n")], dump_dg⟩
  else
  let t2 := t1 ++ [Event.getFunction w.getFunction]
  if !w.getFunction then
    ⟨1, t2 ++ [Event.errs ("The entry function not found: " ++ o.entryFunction ++ "\n")],
      dump_dg⟩
  else
  let t3 := t2 ++ maybe_print_statistics c.statistics "Statistics before "
    ++ [Event.removeUnusedFromModule]
  if c.remove_unused_only then
    ⟨w.saveModule c.should_verify_module,
      t3 ++ [Event.errs "[llvm-slicer] removed unused parts of module, exiting...\n"]
        ++ maybe_print_statistics c.statistics "Statistics after "
        ++ [Event.saveModule c.should_verify_module (w.saveModule c.should_verify_module)],
      dump_dg⟩
  else
  let t4 := t3 ++ [Event.buildDG w.buildDG]
  if !w.buildDG then
    ⟨1, t4 ++ [Event.errs "ERROR: Failed building DG\n"], dump_dg⟩
  else
  let annotator : Nat := parseAnnotationOptions w.splitList w.flags c.annotationOpts
  let criteria_nodes : List Nat := w.getSlicingCriteriaNodes.2
  let t5 := t4 ++ [Event.getSlicingCriteriaNodes w.getSlicingCriteriaNodes.1 criteria_nodes]
  if !w.getSlicingCriteriaNodes.1 then
    ⟨1, t5 ++ [Event.errs ("ERROR: Failed finding slicing criteria: \x27"
                  ++ o.slicingCriteria ++ "\x27\n")]
          ++ annotateIfAsked (w.shouldAnnotate annotator), dump_dg⟩
  else if criteria_nodes.isEmpty then
    let t6 := t5 ++ [Event.errs ("No reachable slicing criteria: \x27"
                  ++ o.slicingCriteria ++ "\x27\n")]
          ++ annotateIfAsked (w.shouldAnnotate annotator)
          ++ [Event.createEmptyMain w.createEmptyMain]
    if !w.createEmptyMain then
      ⟨1, t6 ++ [Event.errs "ERROR: failed creating an empty main\n"], dump_dg⟩
    else
      ⟨w.cleanAndSaveModule c.should_verify_module,
        t6 ++ maybe_print_statistics c.statistics "Statistics after "
          ++ [Event.cleanAndSaveModule c.should_verify_module
                (w.cleanAndSaveModule c.should_verify_module)], dump_dg⟩
  else
  -- mark nodes that are going to be in the slice
  let t7 := t5 ++ [Event.mark criteria_nodes (w.mark criteria_nodes)]
  if !w.mark criteria_nodes then
    ⟨1, t7 ++ [Event.errs "Finding dependent nodes failed\n"], dump_dg⟩
  else
  let t8 := t7 ++ (if w.shouldAnnotate annotator then
      [Event.shouldAnnotate true, Event.annotate (some criteria_nodes)]
    else [Event.shouldAnnotate false])
  let t9 := t8 ++ (if dump_dg then [Event.dumpToDot none] else [])
  if dump_dg && c.dump_dg_only then
    ⟨0, t9, dump_dg⟩
  else
  -- slice the graph
  let t10 := t9 ++ [Event.slice w.slice]
  if !w.slice then
    ⟨1, t10 ++ [Event.errs "ERROR: Slicing failed\n"], dump_dg⟩
  else
  let t11 := t10 ++ [Event.getBasicBlock]
    ++ (if dump_dg then [Event.dumpToDot (some ".sliced.dot")] else [])
    ++ maybe_print_statistics c.statistics "Statistics after "
  ⟨w.cleanAndSaveModule c.should_verify_module,
    t11 ++ [Event.cleanAndSaveModule c.should_verify_module
              (w.cleanAndSaveModule c.should_verify_module)], dump_dg⟩

/-! ## The paths through `main` -/

/-- Calls made on every path that gets past the entry-function check, up to and
including the first `removeUnusedFromModule`. -/
def pathToWriter (c : CommandLine) : List Event :=
  (if c.enable_debug then [Event.DBG_ENABLE] else [])
    ++ [Event.parseIRFile true, Event.getFunction true]
    ++ maybe_print_statistics c.statistics "Statistics before "
    ++ [Event.removeUnusedFromModule]

/-- Calls made on every path that gets past `buildDG`, up to and including
`getSlicingCriteriaNodes`. -/
def pathToCriteria (c : CommandLine) (w : Environment) : List Event :=
  pathToWriter c ++ [Event.buildDG true,
    Event.getSlicingCriteriaNodes w.getSlicingCriteriaNodes.1 w.getSlicingCriteriaNodes.2]

/-- Calls made on every path on which marking succeeded, up to the test of
`dump_dg_only`. -/
def pathToDump (c : CommandLine) (w : Environment) : List Event :=
  pathToCriteria c w ++ [Event.mark w.getSlicingCriteriaNodes.2 true]
    ++ (if w.shouldAnnotate (parseAnnotationOptions w.splitList w.flags c.annotationOpts) then
          [Event.shouldAnnotate true, Event.annotate (some w.getSlicingCriteriaNodes.2)]
        else [Event.shouldAnnotate false])
    ++ (if (if c.dump_dg_only then true else c.dump_dg) then [Event.dumpToDot none] else [])

/-! ## Order of calls in a trace -/

/-- The call is a `slicer.slice()`. -/
def Event.isSlice : Event → Bool
  | .slice _ => true
  | _ => false

/-- The call is a `slicer.mark(...)`. -/
def Event.isMark : Event → Bool
  | .mark _ _ => true
  | _ => false

/-- The call is a `writer.cleanAndSaveModule(...)`. -/
def Event.isCleanAndSaveModule : Event → Bool
  | .cleanAndSaveModule _ _ => true
  | _ => false

/-- The call is a `slicer.mark(...)` that returned true. -/
def Event.isMarkTrue : Event → Bool
  | .mark _ true => true
  | _ => false

/-- The call is a `slicer.buildDG()` that returned true. -/
def Event.isBuildDGTrue : Event → Bool
  | .buildDG true => true
  | _ => false

/-- The call is a `slicer.slice()` that returned true. -/
def Event.isSliceTrue : Event → Bool
  | .slice true => true
  | _ => false

/-- The call changes the module held by `main`: the writer's clean-up passes,
the slicer's reduction and the replacement of the program by an empty `main`. -/
def Event.mutatesModule : Event → Bool
  | .removeUnusedFromModule => true
  | .cleanAndSaveModule _ _ => true
  | .createEmptyMain _ => true
  | .slice _ => true
  | _ => false

/-- In the trace `t`, every call satisfying `q` comes after some call satisfying `p`. -/
def OnlyAfter (p q : Event → Bool) (t : List Event) : Prop :=
  ∀ pre e post, t = pre ++ e :: post → q e = true → ∃ x ∈ pre, p x = true

/-! ## `LLVMDataDependenceAnalysis` -/

/-- Modelled from the spec: `Offset`, declared outside the embedded files, is
"a concrete non-negative byte offset, or an UNKNOWN sentinel". -/
inductive Offset where
  | known (bytes : Nat)
  | UNKNOWN
  deriving DecidableEq, Repr

/-- Modelled from the spec: one `Def`/`Use` entry of an `RWNode`, the memory
object it touches with the offset and length of the range. -/
structure DefSite where
  target : Nat
  offset : Offset
  len : Offset
  deriving DecidableEq, Repr

/-- Modelled from the spec: `RWNode`, declared outside the embedded files, with
the three lists the header reads: `getUses()`, `getDefines()` (weak
definitions) and `getOverwrites()` (strong definitions), and its stable id. -/
structure RWNode where
  id : Nat
  uses : List DefSite
  defines : List DefSite
  overwrites : List DefSite
  deriving DecidableEq, Repr

/-- How a member call can stop without returning: a failed `assert`, a query the
underlying analysis rejects as issued before `run()` completed, or the use of a
null `DDA` pointer. -/
inductive Failure where
  | assertion (cond : String)
  | contractViolation
  | nullDereference
  deriving DecidableEq, Repr

/-- The failure is a precondition failure (as opposed to a null dereference). -/
def Failure.isPrecondition : Failure → Bool
  | .assertion _ => true
  | .contractViolation => true
  | .nullDereference => false

/-- Modelled from the spec: the class `DataDependenceAnalysis` of
`dg/analysis/DataDependence/DataDependence.h`, which is not among the embedded
files.  It owns the graph with its root, `run()` takes it to the fixpoint, and
its two `getDefinitions` "return the fixpoint result; calling before convergence
is a contract violation". -/
structure DataDependenceAnalysis where
  /-- The root of the read-write graph, if it has one. -/
  root : Option RWNode
  /-- Whether `run()` has completed. -/
  converged : Bool
  /-- The reaching definitions of a use at the fixpoint. -/
  fixpointOfUse : RWNode → List RWNode
  /-- The reaching definitions of a memory range at a location at the fixpoint. -/
  fixpointAt : RWNode → RWNode → Offset → Offset → List RWNode

/-- Modelled from the spec: `DataDependenceAnalysis::run()`, which runs the
analysis to convergence. -/
def DataDependenceAnalysis.run (d : DataDependenceAnalysis) : DataDependenceAnalysis :=
  { d with converged := true }

/-- Modelled from the spec: `DataDependenceAnalysis::getRoot()`. -/
def DataDependenceAnalysis.getRoot (d : DataDependenceAnalysis) : Option RWNode :=
  d.root

/-- Modelled from the spec: `DataDependenceAnalysis::getDefinitions(use)`, the
fixpoint result, a contract violation before convergence. -/
def DataDependenceAnalysis.getDefinitions (d : DataDependenceAnalysis) (use : RWNode) :
    Except Failure (List RWNode) :=
  if d.converged then .ok (d.fixpointOfUse use) else .error .contractViolation

/-- Modelled from the spec:
`DataDependenceAnalysis::getDefinitions(where, mem, off, len)`, the fixpoint
result, a contract violation before convergence. -/
def DataDependenceAnalysis.getDefinitionsAt (d : DataDependenceAnalysis)
    (loc mem : RWNode) (off len : Offset) : Except Failure (List RWNode) :=
  if d.converged then .ok (d.fixpointAt loc mem off len) else .error .contractViolation

/-- The members of `LLVMDataDependenceAnalysis` that its inline functions read.
`builder` and `DDA` may be null; `getNode` stands for the out-of-line member
`getNode(const llvm::Value *)`, with values named by number. -/
structure LLVMDataDependenceAnalysis where
  builder : Option Unit
  DDA : Option DataDependenceAnalysis
  getNode : Nat → Option RWNode

/-- Calls an inline member makes on the underlying analysis. -/
inductive Call where
  | DDA_run
  deriving DecidableEq, Repr

/-- A member call: the calls it made on the underlying analysis and how it ended. -/
structure Called (α : Type) where
  calls : List Call
  result : Except Failure α

/-- The member `getRoot()`, which returns `DDA->getRoot()`; with a null `DDA` the call
dereferences a null pointer. -/
def LLVMDataDependenceAnalysis.getRoot (a : LLVMDataDependenceAnalysis) :
    Except Failure (Option RWNode) :=
  match a.DDA with
  | none => .error .nullDereference
  | some d => .ok d.getRoot

/-- The member `run()`: the assertions `builder`, `DDA` and `getRoot()`, in that
order and with assertions compiled in, then `DDA->run()`. -/
def LLVMDataDependenceAnalysis.run (a : LLVMDataDependenceAnalysis) :
    Called LLVMDataDependenceAnalysis :=
  match a.builder with
  | none => ⟨[], .error (.assertion "builder")⟩
  | some _ =>
    match a.DDA with
    | none => ⟨[], .error (.assertion "DDA")⟩
    | some d =>
      match a.getRoot with
      | .error f => ⟨[], .error f⟩
      | .ok none => ⟨[], .error (.assertion "getRoot()")⟩
      | .ok (some _) => ⟨[Call.DDA_run], .ok { a with DDA := some d.run }⟩

/-- The member `isUse(val)`. -/
def LLVMDataDependenceAnalysis.isUse (a : LLVMDataDependenceAnalysis) (val : Nat) : Bool :=
  match a.getNode val with
  | none => false
  | some nd => !nd.uses.isEmpty

/-- The member `isDef(val)`. -/
def LLVMDataDependenceAnalysis.isDef (a : LLVMDataDependenceAnalysis) (val : Nat) : Bool :=
  match a.getNode val with
  | none => false
  | some nd => !nd.defines.isEmpty || !nd.overwrites.isEmpty

/-- The member `getDefinitions(RWNode *where, RWNode *mem, off, len)`. -/
def LLVMDataDependenceAnalysis.getDefinitionsAt (a : LLVMDataDependenceAnalysis)
    (loc mem : RWNode) (off len : Offset) : Except Failure (List RWNode) :=
  match a.DDA with
  | none => .error .nullDereference
  | some d => d.getDefinitionsAt loc mem off len

/-- The member `getDefinitions(RWNode *use)`. -/
def LLVMDataDependenceAnalysis.getDefinitions (a : LLVMDataDependenceAnalysis)
    (use : RWNode) : Except Failure (List RWNode) :=
  match a.DDA with
  | none => .error .nullDereference
  | some d => d.getDefinitions use

/-- The member `getDefinitions(llvm::Value *use)`. -/
def LLVMDataDependenceAnalysis.getDefinitionsOfValue (a : LLVMDataDependenceAnalysis)
    (use : Nat) : Except Failure (List RWNode) :=
  match a.getNode use with
  | none => .error (.assertion "node")
  | some node => a.getDefinitions node

/-- Whether `run()` has been called on the object and completed. -/
def LLVMDataDependenceAnalysis.hasRun (a : LLVMDataDependenceAnalysis) : Bool :=
  match a.DDA with
  | none => false
  | some d => d.converged

/-! ## Concrete inputs -/

/-- A command line with every switch left at its default except those given. -/
def exampleCommandLine (remove_unused_only dump_dg dump_dg_only : Bool) : CommandLine :=
  { enable_debug := false, should_verify_module := true,
    remove_unused_only := remove_unused_only, statistics := false, dump_dg := dump_dg,
    dump_dg_only := dump_dg_only, dump_bb_only := false, criteria_are_next_instr := false,
    annotationOpts := "" }

/-- Options naming an input file, the entry function and a criterion. -/
def exampleOptions : SlicerOptions :=
  { inputFile := "code.bc", entryFunction := "main", slicingCriteria := "crit",
    legacySlicingCriteria := "", legacySecondarySlicingCriteria := "" }

/-- Six distinct bits for the six enumerators of `AnnotationOptsT`. -/
def exampleFlags : AnnotationOptsT :=
  { ANNOTATE_DD := 1, ANNOTATE_CD := 4, ANNOTATE_DEF := 16, ANNOTATE_PTR := 8,
    ANNOTATE_MEMORYACC := 128, ANNOTATE_SLICE := 64 }

/-- An environment in which the module parses and has its entry function, the
writer returns `0` from `saveModule` and `7` from `cleanAndSaveModule`, and the
remaining answers are as given. -/
def exampleEnvironment (buildDG found : Bool) (criteria : List Nat)
    (createEmptyMain mark slice : Bool) : Environment :=
  { splitList := fun s => s.splitOn ",", flags := exampleFlags,
    parseIRFile := true, getFunction := true, saveModule := fun _ => 0,
    buildDG := buildDG, shouldAnnotate := fun n => n != 0,
    getSlicingCriteriaNodes := (found, criteria), createEmptyMain := createEmptyMain,
    cleanAndSaveModule := fun _ => 7, mark := fun _ => mark, slice := slice }

/-- A load node reading four bytes of object 1. -/
def exampleLoad : RWNode :=
  { id := 2, uses := [⟨1, .known 0, .known 4⟩], defines := [], overwrites := [] }

/-- A store node overwriting four bytes of object 1. -/
def exampleStore : RWNode :=
  { id := 1, uses := [], defines := [], overwrites := [⟨1, .known 0, .known 4⟩] }

/-- An underlying analysis over the two example nodes that has not run. -/
def exampleDDA : DataDependenceAnalysis :=
  { root := some exampleStore, converged := false,
    fixpointOfUse := fun _ => [exampleStore], fixpointAt := fun _ _ _ _ => [exampleStore] }

/-- An analysis object as constructed, before `run()`: value 10 is the store,
value 11 the load. -/
def exampleAnalysis : LLVMDataDependenceAnalysis :=
  { builder := some (), DDA := some exampleDDA,
    getNode := fun v => if v = 10 then some exampleStore
      else if v = 11 then some exampleLoad else none }

/-! # Theorems -/

/-! ## Lemmas: the paths through `main` -/

/-- The eleven paths through `main`, each with the answers that select it and the
run it produces. -/
theorem main_cases (c : CommandLine) (o : SlicerOptions) (w : Environment) :
    (w.parseIRFile = false ∧ main c o w =
      ⟨1, (if c.enable_debug then [Event.DBG_ENABLE] else [])
            ++ [Event.parseIRFile false, Event.printDiagnostic,
                Event.errs ("Failed parsing \x27" ++ o.inputFile ++ "\x27 file:\n")],
        if c.dump_dg_only then true else c.dump_dg⟩)
    ∨ ((w.parseIRFile = true ∧ w.getFunction = false) ∧ main c o w =
      ⟨1, (if c.enable_debug then [Event.DBG_ENABLE] else [])
            ++ [Event.parseIRFile true, Event.getFunction false,
                Event.errs ("The entry function not found: " ++ o.entryFunction ++ "\n")],
        if c.dump_dg_only then true else c.dump_dg⟩)
    ∨ ((w.parseIRFile = true ∧ w.getFunction = true ∧ c.remove_unused_only = true)
        ∧ main c o w =
      ⟨w.saveModule c.should_verify_module,
        pathToWriter c
          ++ [Event.errs "[llvm-slicer] removed unused parts of module, exiting...\n"]
          ++ maybe_print_statistics c.statistics "Statistics after "
          ++ [Event.saveModule c.should_verify_module (w.saveModule c.should_verify_module)],
        if c.dump_dg_only then true else c.dump_dg⟩)
    ∨ ((w.parseIRFile = true ∧ w.getFunction = true ∧ c.remove_unused_only = false
          ∧ w.buildDG = false) ∧ main c o w =
      ⟨1, pathToWriter c ++ [Event.buildDG false, Event.errs "ERROR: Failed building DG\n"],
        if c.dump_dg_only then true else c.dump_dg⟩)
    ∨ ((w.parseIRFile = true ∧ w.getFunction = true ∧ c.remove_unused_only = false
          ∧ w.buildDG = true ∧ w.getSlicingCriteriaNodes.1 = false) ∧ main c o w =
      ⟨1, pathToCriteria c w
            ++ [Event.errs ("ERROR: Failed finding slicing criteria: \x27"
                  ++ o.slicingCriteria ++ "\x27\n")]
            ++ annotateIfAsked (w.shouldAnnotate
                  (parseAnnotationOptions w.splitList w.flags c.annotationOpts)),
        if c.dump_dg_only then true else c.dump_dg⟩)
    ∨ ((w.parseIRFile = true ∧ w.getFunction = true ∧ c.remove_unused_only = false
          ∧ w.buildDG = true ∧ w.getSlicingCriteriaNodes.1 = true
          ∧ w.getSlicingCriteriaNodes.2 = [] ∧ w.createEmptyMain = false) ∧ main c o w =
      ⟨1, pathToCriteria c w
            ++ [Event.errs ("No reachable slicing criteria: \x27"
                  ++ o.slicingCriteria ++ "\x27\n")]
            ++ annotateIfAsked (w.shouldAnnotate
                  (parseAnnotationOptions w.splitList w.flags c.annotationOpts))
            ++ [Event.createEmptyMain false,
                Event.errs "ERROR: failed creating an empty main\n"],
        if c.dump_dg_only then true else c.dump_dg⟩)
    ∨ ((w.parseIRFile = true ∧ w.getFunction = true ∧ c.remove_unused_only = false
          ∧ w.buildDG = true ∧ w.getSlicingCriteriaNodes.1 = true
          ∧ w.getSlicingCriteriaNodes.2 = [] ∧ w.createEmptyMain = true) ∧ main c o w =
      ⟨w.cleanAndSaveModule c.should_verify_module,
        pathToCriteria c w
            ++ [Event.errs ("No reachable slicing criteria: \x27"
                  ++ o.slicingCriteria ++ "\x27\n")]
            ++ annotateIfAsked (w.shouldAnnotate
                  (parseAnnotationOptions w.splitList w.flags c.annotationOpts))
            ++ [Event.createEmptyMain true]
            ++ maybe_print_statistics c.statistics "Statistics after "
            ++ [Event.cleanAndSaveModule c.should_verify_module
                  (w.cleanAndSaveModule c.should_verify_module)],
        if c.dump_dg_only then true else c.dump_dg⟩)
    ∨ ((w.parseIRFile = true ∧ w.getFunction = true ∧ c.remove_unused_only = false
          ∧ w.buildDG = true ∧ w.getSlicingCriteriaNodes.1 = true
          ∧ w.getSlicingCriteriaNodes.2 ≠ []
          ∧ w.mark w.getSlicingCriteriaNodes.2 = false) ∧ main c o w =
      ⟨1, pathToCriteria c w
            ++ [Event.mark w.getSlicingCriteriaNodes.2 false,
                Event.errs "Finding dependent nodes failed\n"],
        if c.dump_dg_only then true else c.dump_dg⟩)
    ∨ ((w.parseIRFile = true ∧ w.getFunction = true ∧ c.remove_unused_only = false
          ∧ w.buildDG = true ∧ w.getSlicingCriteriaNodes.1 = true
          ∧ w.getSlicingCriteriaNodes.2 ≠ []
          ∧ w.mark w.getSlicingCriteriaNodes.2 = true ∧ c.dump_dg_only = true)
        ∧ main c o w = ⟨0, pathToDump c w, true⟩)
    ∨ ((w.parseIRFile = true ∧ w.getFunction = true ∧ c.remove_unused_only = false
          ∧ w.buildDG = true ∧ w.getSlicingCriteriaNodes.1 = true
          ∧ w.getSlicingCriteriaNodes.2 ≠ []
          ∧ w.mark w.getSlicingCriteriaNodes.2 = true ∧ c.dump_dg_only = false
          ∧ w.slice = false) ∧ main c o w =
      ⟨1, pathToDump c w ++ [Event.slice false, Event.errs "ERROR: Slicing failed\n"],
        c.dump_dg⟩)
    ∨ ((w.parseIRFile = true ∧ w.getFunction = true ∧ c.remove_unused_only = false
          ∧ w.buildDG = true ∧ w.getSlicingCriteriaNodes.1 = true
          ∧ w.getSlicingCriteriaNodes.2 ≠ []
          ∧ w.mark w.getSlicingCriteriaNodes.2 = true ∧ c.dump_dg_only = false
          ∧ w.slice = true) ∧ main c o w =
      ⟨w.cleanAndSaveModule c.should_verify_module,
        pathToDump c w ++ [Event.slice true, Event.getBasicBlock]
          ++ (if c.dump_dg then [Event.dumpToDot (some ".sliced.dot")] else [])
          ++ maybe_print_statistics c.statistics "Statistics after "
          ++ [Event.cleanAndSaveModule c.should_verify_module
                (w.cleanAndSaveModule c.should_verify_module)],
        c.dump_dg⟩) := by
  unfold main
  lift_lets
  intro t0 dump_dg M t1 t2 t3 t4 annotator criteria_nodes t5 t6 t7 t8 t9 t10 t11
  cases h1 : w.parseIRFile
  · left
    rw [if_pos (by simp [M, parseModule, h1])]
    simp [t1, t0, M, parseModule, h1, dump_dg]
  right
  rw [if_neg (by simp [M, parseModule, h1])]
  have e1 : t1 = t0 ++ [Event.parseIRFile true] := by simp [t1, M, parseModule, h1]
  cases h2 : w.getFunction
  · left
    rw [if_pos (by simp)]
    simp [t2, e1, t0, h2, dump_dg]
  right
  rw [if_neg (by simp)]
  have e3 : t3 = pathToWriter c := by simp [t3, t2, e1, t0, h2, pathToWriter]
  cases h3 : c.remove_unused_only
  swap
  · left
    rw [if_pos rfl]
    simp [e3, dump_dg]
  right
  rw [if_neg (by simp)]
  cases h4 : w.buildDG
  · left
    rw [if_pos (by simp)]
    simp [t4, e3, h4, dump_dg]
  right
  rw [if_neg (by simp)]
  have e5 : t5 = pathToCriteria c w := by simp [t5, t4, e3, h4, pathToCriteria, criteria_nodes]
  cases h5 : w.getSlicingCriteriaNodes.1
  · left
    rw [if_pos (by simp)]
    simp [e5, dump_dg, annotator]
  right
  rw [if_neg (by simp)]
  by_cases h6 : w.getSlicingCriteriaNodes.2 = []
  · rw [if_pos (by simp [criteria_nodes, h6])]
    cases h7 : w.createEmptyMain
    · left
      rw [if_pos (by simp)]
      simp [t6, e5, h6, h7, dump_dg, annotator]
    · right; left
      rw [if_neg (by simp)]
      simp [t6, e5, h6, h7, dump_dg, annotator]
  right; right
  rw [if_neg (by simp [criteria_nodes, h6])]
  cases h8 : w.mark w.getSlicingCriteriaNodes.2
  · left
    rw [if_pos (by simp [criteria_nodes, h8])]
    simp [t7, e5, h6, h8, dump_dg, criteria_nodes]
  right
  rw [if_neg (by simp [criteria_nodes, h8])]
  have e9 : t9 = pathToDump c w := by
    simp [t9, t8, t7, e5, h8, pathToDump, criteria_nodes, annotator, dump_dg]
  cases h9 : c.dump_dg_only
  swap
  · left
    rw [if_pos (by simp [dump_dg, h9])]
    simp [e9, h6, h8, dump_dg, h9]
  right
  rw [if_neg (by simp [dump_dg, h9])]
  cases h10 : w.slice
  · left
    rw [if_pos (by simp)]
    simp [t10, e9, h6, h8, h10, dump_dg, h9]
  right
  rw [if_neg (by simp)]
  simp [t11, t10, e9, h6, h8, h10, dump_dg, h9]

/-- A run in which `buildDG()` returned false took the fourth path. -/
theorem buildDG_false_run (c : CommandLine) (o : SlicerOptions) (w : Environment)
    (hb : Event.buildDG false ∈ (main c o w).trace) :
    (main c o w).exit = 1 ∧ (main c o w).trace
      = pathToWriter c ++ [Event.buildDG false, Event.errs "ERROR: Failed building DG\n"] := by
  rcases main_cases c o w with ⟨h, hm⟩ | ⟨h, hm⟩ | ⟨h, hm⟩ | ⟨h, hm⟩ | ⟨h, hm⟩ | ⟨h, hm⟩
    | ⟨h, hm⟩ | ⟨h, hm⟩ | ⟨h, hm⟩ | ⟨h, hm⟩ | ⟨h, hm⟩ <;>
  · simp only [hm] at hb ⊢
    simp [pathToWriter, pathToCriteria, pathToDump, maybe_print_statistics,
      annotateIfAsked, h] at hb ⊢ <;>
    (try split_ifs at * <;> simp_all)

/-! ## Lemmas: order of calls -/

theorem onlyAfter_nil (p q : Event → Bool) : OnlyAfter p q [] := by
  intro pre e post h
  simp at h

theorem onlyAfter_cons (p q : Event → Bool) (x : Event) (t : List Event) :
    OnlyAfter p q (x :: t) ↔ q x = false ∧ (p x = true ∨ OnlyAfter p q t) := by
  constructor
  · intro h
    refine ⟨?_, ?_⟩
    · by_contra hq
      obtain ⟨y, hy, _⟩ := h [] x t rfl (by simpa using hq)
      simp at hy
    · by_cases hp : p x = true
      · exact Or.inl hp
      · right
        intro pre e post ht hq
        obtain ⟨y, hy, hpy⟩ := h (x :: pre) e post (by simp [ht]) hq
        rcases List.mem_cons.1 hy with rfl | hy
        · exact absurd hpy hp
        · exact ⟨y, hy, hpy⟩
  · rintro ⟨hq, h⟩ pre e post ht hqe
    cases pre with
    | nil =>
      simp at ht
      obtain ⟨rfl, _⟩ := ht
      simp [hq] at hqe
    | cons a pre =>
      simp at ht
      obtain ⟨rfl, ht⟩ := ht
      rcases h with hp | h
      · exact ⟨x, by simp, hp⟩
      · obtain ⟨y, hy, hpy⟩ := h pre e post ht hqe
        exact ⟨y, by simp [hy], hpy⟩

theorem onlyAfter_append (p q : Event → Bool) (s t : List Event) :
    OnlyAfter p q (s ++ t) ↔ OnlyAfter p q s ∧ ((∃ x ∈ s, p x = true) ∨ OnlyAfter p q t) := by
  induction s with
  | nil => simp [onlyAfter_nil]
  | cons a s ih =>
    have hex : (∃ x ∈ a :: s, p x = true) ↔ (p a = true ∨ ∃ x ∈ s, p x = true) := by
      simp
    rw [List.cons_append, onlyAfter_cons, onlyAfter_cons, ih, hex]
    generalize (∃ x ∈ s, p x = true) = D
    generalize OnlyAfter p q s = C
    generalize OnlyAfter p q t = E
    tauto

/-- A call that comes only after `p`-calls has one of them in front of it, with
the trace split at that call. -/
theorem OnlyAfter.split {p q : Event → Bool} {t : List Event} (h : OnlyAfter p q t)
    {pre post : List Event} {e : Event} (ht : t = pre ++ e :: post) (hq : q e = true) :
    ∃ a x b, pre = a ++ x :: b ∧ p x = true := by
  obtain ⟨x, hx, hp⟩ := h pre e post ht hq
  obtain ⟨a, b, rfl⟩ := List.append_of_mem hx
  exact ⟨a, x, b, rfl, hp⟩

/-- The order of the stages in every trace of `main`. -/
theorem main_order (c : CommandLine) (o : SlicerOptions) (w : Environment) :
    OnlyAfter Event.isMarkTrue Event.isSlice (main c o w).trace
      ∧ OnlyAfter Event.isBuildDGTrue Event.isMark (main c o w).trace := by
  rcases main_cases c o w with ⟨h, hm⟩ | ⟨h, hm⟩ | ⟨h, hm⟩ | ⟨h, hm⟩ | ⟨h, hm⟩ | ⟨h, hm⟩
    | ⟨h, hm⟩ | ⟨h, hm⟩ | ⟨h, hm⟩ | ⟨h, hm⟩ | ⟨h, hm⟩ <;>
  · simp only [hm]
    try simp only [pathToWriter, pathToCriteria, pathToDump, maybe_print_statistics,
      annotateIfAsked]
    split_ifs <;>
    simp [h, onlyAfter_append, onlyAfter_cons, onlyAfter_nil, Event.isSlice,
      Event.isMark, Event.isMarkTrue, Event.isBuildDGTrue]

/-- Each of `slice` and `mark` is called at most once. -/
theorem main_once (c : CommandLine) (o : SlicerOptions) (w : Environment) :
    (main c o w).trace.countP Event.isSlice ≤ 1
      ∧ (main c o w).trace.countP Event.isMark ≤ 1 := by
  rcases main_cases c o w with ⟨h, hm⟩ | ⟨h, hm⟩ | ⟨h, hm⟩ | ⟨h, hm⟩ | ⟨h, hm⟩ | ⟨h, hm⟩
    | ⟨h, hm⟩ | ⟨h, hm⟩ | ⟨h, hm⟩ | ⟨h, hm⟩ | ⟨h, hm⟩ <;>
  · simp only [hm]
    try simp only [pathToWriter, pathToCriteria, pathToDump, maybe_print_statistics,
      annotateIfAsked]
    split_ifs <;>
    simp [List.countP_cons, Event.isSlice, Event.isMark]

/-- On a path on which `mark` was called, `cleanAndSaveModule` is called only
after a `slice()` that returned true. -/
theorem main_save_after_slice (c : CommandLine) (o : SlicerOptions) (w : Environment)
    (hk : ∃ ns k, Event.mark ns k ∈ (main c o w).trace) :
    OnlyAfter Event.isSliceTrue Event.isCleanAndSaveModule (main c o w).trace := by
  obtain ⟨ns, k, hk⟩ := hk
  revert hk
  rcases main_cases c o w with ⟨h, hm⟩ | ⟨h, hm⟩ | ⟨h, hm⟩ | ⟨h, hm⟩ | ⟨h, hm⟩ | ⟨h, hm⟩
    | ⟨h, hm⟩ | ⟨h, hm⟩ | ⟨h, hm⟩ | ⟨h, hm⟩ | ⟨h, hm⟩ <;>
  · simp only [hm]
    try simp only [pathToWriter, pathToCriteria, pathToDump, maybe_print_statistics,
      annotateIfAsked]
    split_ifs <;>
    simp [h, onlyAfter_append, onlyAfter_cons, onlyAfter_nil, Event.isSliceTrue,
      Event.isCleanAndSaveModule]

theorem Event.eq_of_isMarkTrue {e : Event} (h : e.isMarkTrue = true) :
    ∃ ns, e = Event.mark ns true := by
  cases e <;> simp [Event.isMarkTrue] at h
  case mark ns ok =>
    cases ok
    · simp at h
    · exact ⟨ns, rfl⟩

theorem Event.eq_of_isBuildDGTrue {e : Event} (h : e.isBuildDGTrue = true) :
    e = Event.buildDG true := by
  cases e <;> simp [Event.isBuildDGTrue] at h
  case buildDG ok =>
    cases ok
    · simp at h
    · rfl

theorem Event.eq_of_isSliceTrue {e : Event} (h : e.isSliceTrue = true) :
    e = Event.slice true := by
  cases e <;> simp [Event.isSliceTrue] at h
  case slice ok =>
    cases ok
    · simp at h
    · rfl

/-! ## Lemmas: annotation flags -/

theorem parseAnnotationOption_eq (K : AnnotationOptsT) (opts : Nat) (opt : String) :
    parseAnnotationOption K opts opt = opts ||| flagOf K opt := by
  unfold parseAnnotationOption flagOf
  split_ifs <;> simp

theorem testBit_foldl_parseAnnotationOption (K : AnnotationOptsT) (ts : List String)
    (init i : Nat) :
    (ts.foldl (parseAnnotationOption K) init).testBit i
      = (init.testBit i || ts.any (fun t => (flagOf K t).testBit i)) := by
  induction ts generalizing init with
  | nil => simp
  | cons t ts ih =>
    simp [ih, parseAnnotationOption_eq, Bool.or_assoc]

theorem hasFlag_iff (opts flag : Nat) :
    hasFlag opts flag ↔ ∃ i, opts.testBit i = true ∧ flag.testBit i = true := by
  unfold hasFlag
  constructor
  · intro h
    by_contra hn
    apply h
    apply Nat.eq_of_testBit_eq
    intro i
    simp only [Nat.testBit_and, Nat.zero_testBit]
    by_contra hi
    apply hn
    refine ⟨i, ?_, ?_⟩ <;> revert hi <;> cases opts.testBit i <;> cases flag.testBit i <;> simp
  · rintro ⟨i, h1, h2⟩ h
    have := congrArg (fun n => n.testBit i) h
    simp [h1, h2] at this

theorem hasFlag_foldl (K : AnnotationOptsT) (ts : List String) (flag : Nat) :
    hasFlag (ts.foldl (parseAnnotationOption K) 0) flag
      ↔ ∃ t ∈ ts, hasFlag (flagOf K t) flag := by
  simp only [hasFlag_iff, testBit_foldl_parseAnnotationOption]
  simp
  constructor
  · rintro ⟨i, ⟨t, ht, h1⟩, h2⟩
    exact ⟨t, ht, i, h1, h2⟩
  · rintro ⟨t, ht, i, h1, h2⟩
    exact ⟨i, ⟨t, ht, h1⟩, h2⟩

theorem hasFlag_self {a : Nat} (h : a ≠ 0) : hasFlag a a := by
  simpa [hasFlag] using h

theorem not_hasFlag_of_disjoint {a b : Nat} (h : a &&& b = 0) : ¬ hasFlag a b := by
  simp [hasFlag, h]

theorem not_hasFlag_of_disjoint_symm {a b : Nat} (h : a &&& b = 0) : ¬ hasFlag b a := by
  simp [hasFlag, Nat.land_comm b a, h]

theorem not_hasFlag_zero (b : Nat) : ¬ hasFlag 0 b := by
  simp [hasFlag]

/-- Which list elements contribute which flag, for independent enumerators. -/
theorem hasFlag_flagOf (K : AnnotationOptsT) (hK : K.Independent) (t : String) :
    (hasFlag (flagOf K t) K.ANNOTATE_DD ↔ t = "dd")
    ∧ (hasFlag (flagOf K t) K.ANNOTATE_CD ↔ t = "cd" ∨ t = "cda")
    ∧ (hasFlag (flagOf K t) K.ANNOTATE_PTR ↔ t = "pta")
    ∧ (hasFlag (flagOf K t) K.ANNOTATE_MEMORYACC ↔ t = "memacc")
    ∧ (hasFlag (flagOf K t) K.ANNOTATE_SLICE ↔ t = "slice" ∨ t = "sl" ∨ t = "slicer")
    ∧ (hasFlag (flagOf K t) K.ANNOTATE_DEF ↔ t = "dda" ∨ t = "du") := by
  obtain ⟨hp, hn⟩ := hK
  simp only [List.pairwise_cons, List.mem_cons, List.mem_singleton, forall_eq_or_imp, forall_eq,
    List.not_mem_nil, false_implies, implies_true, and_true, List.Pairwise.nil] at hp hn
  obtain ⟨⟨d1, d2, d3, d4, d5⟩, ⟨c1, c2, c3, c4⟩, ⟨e1, e2, e3⟩, ⟨p1, p2⟩, m1⟩ := hp
  obtain ⟨n1, n2, n3, n4, n5, n6⟩ := hn
  unfold flagOf
  split_ifs with h1 h2 h3 h4 h5 h6 <;>
    simp_all [hasFlag_self, not_hasFlag_of_disjoint, not_hasFlag_of_disjoint_symm,
      not_hasFlag_zero] <;>
    first
    | (rcases h2 with rfl | rfl <;> simp)
    | (rcases h3 with rfl | rfl <;> simp)

/-! ## Lemmas: the data-dependence front end -/

/-- The two node-level `getDefinitions` overloads check nothing themselves: with
the underlying analysis present they are its answers. -/
theorem getDefinitions_forwards (a : LLVMDataDependenceAnalysis)
    (d : DataDependenceAnalysis) (h : a.DDA = some d) :
    (∀ use, a.getDefinitions use = d.getDefinitions use)
    ∧ (∀ loc mem off len,
        a.getDefinitionsAt loc mem off len = d.getDefinitionsAt loc mem off len) := by
  constructor
  · intro use
    simp [LLVMDataDependenceAnalysis.getDefinitions, h]
  · intro loc mem off len
    simp [LLVMDataDependenceAnalysis.getDefinitionsAt, h]

/-- Once `run()` has returned, `getDefinitions(use)` returns the fixpoint result. -/
theorem getDefinitions_after_run (a b : LLVMDataDependenceAnalysis)
    (d : DataDependenceAnalysis) (hd : a.DDA = some d) (cs : List Call)
    (h : a.run = ⟨cs, .ok b⟩) (use : RWNode) :
    b.getDefinitions use = .ok (d.fixpointOfUse use) := by
  unfold LLVMDataDependenceAnalysis.run at h
  cases hb : a.builder with
  | none => simp [hb] at h
  | some u =>
    simp only [hb, hd, LLVMDataDependenceAnalysis.getRoot] at h
    cases hr : d.getRoot with
    | none => simp [hr] at h
    | some r =>
      simp only [hr, Called.mk.injEq, Except.ok.injEq] at h
      obtain ⟨_, rfl⟩ := h
      simp [LLVMDataDependenceAnalysis.getDefinitions, DataDependenceAnalysis.getDefinitions,
        DataDependenceAnalysis.run]

/-! ## The driver `main` -/

/-- C1: in a run in which parsing, the entry-function lookup and `buildDG()`
succeeded and `getSlicingCriteriaNodes()` returned false, `main` returns 1 and
never calls `createEmptyMain`, `mark`, `slice`, `saveModule` or
`cleanAndSaveModule`. -/
theorem criteria_not_found_aborts (c : CommandLine) (o : SlicerOptions) (w : Environment)
    (cs : List Nat)
    (hp : Event.parseIRFile true ∈ (main c o w).trace)
    (hf : Event.getFunction true ∈ (main c o w).trace)
    (hb : Event.buildDG true ∈ (main c o w).trace)
    (hc : Event.getSlicingCriteriaNodes false cs ∈ (main c o w).trace) :
    (main c o w).exit = 1
      ∧ (∀ r, Event.createEmptyMain r ∉ (main c o w).trace)
      ∧ (∀ ns r, Event.mark ns r ∉ (main c o w).trace)
      ∧ (∀ r, Event.slice r ∉ (main c o w).trace)
      ∧ (∀ v r, Event.saveModule v r ∉ (main c o w).trace)
      ∧ (∀ v r, Event.cleanAndSaveModule v r ∉ (main c o w).trace) := by
  rcases main_cases c o w with ⟨h, hm⟩ | ⟨h, hm⟩ | ⟨h, hm⟩ | ⟨h, hm⟩ | ⟨h, hm⟩ | ⟨h, hm⟩
    | ⟨h, hm⟩ | ⟨h, hm⟩ | ⟨h, hm⟩ | ⟨h, hm⟩ | ⟨h, hm⟩ <;>
  · simp only [hm] at hp hf hb hc ⊢
    simp [pathToWriter, pathToCriteria, pathToDump, maybe_print_statistics,
      annotateIfAsked, h] at hp hf hb hc ⊢ <;>
    (try split_ifs at * <;> simp_all)

theorem criteria_not_found_aborts_witness :
    (main (exampleCommandLine false false false) exampleOptions
        (exampleEnvironment true false [] true true true)).exit = 1 :=
  (criteria_not_found_aborts (exampleCommandLine false false false) exampleOptions
    (exampleEnvironment true false [] true true true) []
    (by decide) (by decide) (by decide) (by decide)).1

/-- C2: `mark` is only ever called with a non-empty criteria set, and in a run in
which `getSlicingCriteriaNodes()` returned true with an empty set,
`createEmptyMain` is called, `mark` and `slice` are not, the return value is that
of `cleanAndSaveModule` when `createEmptyMain()` returned true, and it is 1,
with no module saved, when `createEmptyMain()` returned false. -/
theorem empty_criteria_is_not_fatal (c : CommandLine) (o : SlicerOptions) (w : Environment) :
    (∀ ns r, Event.mark ns r ∈ (main c o w).trace → ns ≠ [])
    ∧ (Event.getSlicingCriteriaNodes true [] ∈ (main c o w).trace →
        (∃ r, Event.createEmptyMain r ∈ (main c o w).trace)
        ∧ (∀ ns r, Event.mark ns r ∉ (main c o w).trace)
        ∧ (∀ r, Event.slice r ∉ (main c o w).trace)
        ∧ (Event.createEmptyMain true ∈ (main c o w).trace →
            (main c o w).exit = w.cleanAndSaveModule c.should_verify_module
            ∧ Event.cleanAndSaveModule c.should_verify_module (main c o w).exit
                ∈ (main c o w).trace)
        ∧ (Event.createEmptyMain false ∈ (main c o w).trace →
            (main c o w).exit = 1
            ∧ ∀ v r, Event.cleanAndSaveModule v r ∉ (main c o w).trace)) := by
  rcases main_cases c o w with ⟨h, hm⟩ | ⟨h, hm⟩ | ⟨h, hm⟩ | ⟨h, hm⟩ | ⟨h, hm⟩ | ⟨h, hm⟩
    | ⟨h, hm⟩ | ⟨h, hm⟩ | ⟨h, hm⟩ | ⟨h, hm⟩ | ⟨h, hm⟩ <;>
  · simp only [hm]
    simp [pathToWriter, pathToCriteria, pathToDump, maybe_print_statistics,
      annotateIfAsked, h] <;>
    (try split_ifs at * <;> simp_all)

theorem empty_criteria_is_not_fatal_witness :
    (main (exampleCommandLine false false false) exampleOptions
        (exampleEnvironment true true [] true true true)).exit = 7 :=
  ((((empty_criteria_is_not_fatal (exampleCommandLine false false false) exampleOptions
    (exampleEnvironment true true [] true true true)).2 (by decide)).2.2.2.1
      (by decide)).1).trans (by decide)

/-- C3, as the code has it: in a run in which `buildDG()` returned false, `main`
returns 1; `removeUnusedFromModule` was called once, before `buildDG()`, and it
is the only call that changed the module; nothing was saved. -/
theorem buildDG_failure_aborts_after_cleanup (c : CommandLine) (o : SlicerOptions)
    (w : Environment) (hb : Event.buildDG false ∈ (main c o w).trace) :
    (main c o w).exit = 1
      ∧ (∃ pre post, (main c o w).trace = pre ++ Event.buildDG false :: post
          ∧ Event.removeUnusedFromModule ∈ pre
          ∧ (∀ e ∈ post, e.mutatesModule = false))
      ∧ (main c o w).trace.count Event.removeUnusedFromModule = 1
      ∧ (∀ e ∈ (main c o w).trace,
          e.mutatesModule = true → e = Event.removeUnusedFromModule)
      ∧ (∀ v r, Event.saveModule v r ∉ (main c o w).trace) := by
  obtain ⟨he, ht⟩ := buildDG_false_run c o w hb
  refine ⟨he, ⟨pathToWriter c, [Event.errs "ERROR: Failed building DG\n"], ht, ?_, ?_⟩,
    ?_, ?_, ?_⟩
  · simp [pathToWriter]
  · simp [Event.mutatesModule]
  · rw [ht]
    simp [pathToWriter, maybe_print_statistics]
    split_ifs <;> simp
  · rw [ht]
    simp only [pathToWriter, maybe_print_statistics]
    intro e he hmut
    split_ifs at he <;> simp at he <;>
      rcases he with rfl | rfl | rfl | rfl | rfl | rfl | rfl <;>
      simp_all [Event.mutatesModule]
  · rw [ht]
    simp [pathToWriter, maybe_print_statistics]

theorem buildDG_failure_aborts_after_cleanup_witness :
    (main (exampleCommandLine false false false) exampleOptions
        (exampleEnvironment false true [] true true true)).exit = 1 :=
  (buildDG_failure_aborts_after_cleanup (exampleCommandLine false false false) exampleOptions
    (exampleEnvironment false true [] true true true) (by decide)).1

/-- C3 as stated fails: with the default switches and a module on which
`buildDG()` fails, `main` has already called `removeUnusedFromModule`, which
changes the module, when it aborts. -/
theorem buildDG_failure_mutation_counterexample :
    (main (exampleCommandLine false false false) exampleOptions
        (exampleEnvironment false true [] true true true)).trace
      = [Event.parseIRFile true, Event.getFunction true, Event.removeUnusedFromModule,
         Event.buildDG false, Event.errs "ERROR: Failed building DG\n"]
    ∧ (main (exampleCommandLine false false false) exampleOptions
        (exampleEnvironment false true [] true true true)).exit = 1
    ∧ ¬ (∀ e ∈ (main (exampleCommandLine false false false) exampleOptions
          (exampleEnvironment false true [] true true true)).trace,
        e.mutatesModule = false) := by
  decide

/-- C4: in a run in which `buildDG()` or `mark()` returned false, `main` returns 1
and has called none of `saveModule`, `cleanAndSaveModule`, `annotate` and
`dumpToDot`. -/
theorem build_or_mark_failure_leaves_no_output (c : CommandLine) (o : SlicerOptions)
    (w : Environment)
    (hb : Event.buildDG false ∈ (main c o w).trace
      ∨ ∃ ns, Event.mark ns false ∈ (main c o w).trace) :
    (main c o w).exit = 1
      ∧ (∀ v r, Event.saveModule v r ∉ (main c o w).trace)
      ∧ (∀ v r, Event.cleanAndSaveModule v r ∉ (main c o w).trace)
      ∧ (∀ cs, Event.annotate cs ∉ (main c o w).trace)
      ∧ (∀ s, Event.dumpToDot s ∉ (main c o w).trace) := by
  rcases main_cases c o w with ⟨h, hm⟩ | ⟨h, hm⟩ | ⟨h, hm⟩ | ⟨h, hm⟩ | ⟨h, hm⟩ | ⟨h, hm⟩
    | ⟨h, hm⟩ | ⟨h, hm⟩ | ⟨h, hm⟩ | ⟨h, hm⟩ | ⟨h, hm⟩ <;>
  · simp only [hm] at hb ⊢
    simp [pathToWriter, pathToCriteria, pathToDump, maybe_print_statistics,
      annotateIfAsked, h] at hb ⊢ <;>
    (try split_ifs at * <;> simp_all)

theorem build_or_mark_failure_leaves_no_output_witness :
    (main (exampleCommandLine false true false) exampleOptions
        (exampleEnvironment true true [3] true false true)).exit = 1 :=
  (build_or_mark_failure_leaves_no_output (exampleCommandLine false true false) exampleOptions
    (exampleEnvironment true true [3] true false true) (Or.inr ⟨[3], by decide⟩)).1

/-- C5: in every run `slice` and `mark` are each called at most once; whatever
precedes a call of `slice` contains a `buildDG()` that returned true and, after
it, a `mark()` that returned true; whatever precedes a call of `mark` contains a
`buildDG()` that returned true; and on a path on which `mark` was called,
whatever precedes a call of `cleanAndSaveModule` contains a `slice()` that
returned true. -/
theorem stages_in_order (c : CommandLine) (o : SlicerOptions) (w : Environment) :
    (main c o w).trace.countP Event.isSlice ≤ 1
      ∧ (main c o w).trace.countP Event.isMark ≤ 1
      ∧ (∀ pre r post, (main c o w).trace = pre ++ Event.slice r :: post →
          ∃ a b d ns, pre = a ++ Event.buildDG true :: (b ++ Event.mark ns true :: d))
      ∧ (∀ pre ns r post, (main c o w).trace = pre ++ Event.mark ns r :: post →
          Event.buildDG true ∈ pre)
      ∧ (∀ pre v r post, (main c o w).trace = pre ++ Event.cleanAndSaveModule v r :: post →
          (∃ ns k, Event.mark ns k ∈ (main c o w).trace) → Event.slice true ∈ pre) := by
  obtain ⟨hs, hk⟩ := main_order c o w
  refine ⟨(main_once c o w).1, (main_once c o w).2, ?_, ?_, ?_⟩
  · intro pre r post ht
    obtain ⟨a, x, d, rfl, hx⟩ := hs.split ht rfl
    obtain ⟨ns, rfl⟩ := Event.eq_of_isMarkTrue hx
    have ht2 : (main c o w).trace = a ++ Event.mark ns true :: (d ++ Event.slice r :: post) := by
      rw [ht]
      simp
    obtain ⟨a2, y, b, rfl, hy⟩ := hk.split ht2 rfl
    obtain rfl := Event.eq_of_isBuildDGTrue hy
    exact ⟨a2, b, d, ns, by simp⟩
  · intro pre ns r post ht
    obtain ⟨y, hy, hp⟩ := hk pre _ post ht rfl
    obtain rfl := Event.eq_of_isBuildDGTrue hp
    exact hy
  · intro pre v r post ht hm
    obtain ⟨y, hy, hp⟩ := main_save_after_slice c o w hm pre _ post ht rfl
    obtain rfl := Event.eq_of_isSliceTrue hp
    exact hy

theorem stages_in_order_witness :
    Event.slice true ∈ [Event.parseIRFile true, Event.getFunction true,
      Event.removeUnusedFromModule, Event.buildDG true,
      Event.getSlicingCriteriaNodes true [3], Event.mark [3] true,
      Event.shouldAnnotate false, Event.slice true, Event.getBasicBlock] :=
  (stages_in_order (exampleCommandLine false false false) exampleOptions
      (exampleEnvironment true true [3] true true true)).2.2.2.2
    [Event.parseIRFile true, Event.getFunction true, Event.removeUnusedFromModule,
      Event.buildDG true, Event.getSlicingCriteriaNodes true [3], Event.mark [3] true,
      Event.shouldAnnotate false, Event.slice true, Event.getBasicBlock]
    true 7 [] (by decide) ⟨[3], true, by decide⟩

/-- C8: with `--dump-dg-only`, `dump_dg` ends up true, `slice` is never called,
and a run in which `buildDG()` and `mark()` succeeded calls `dumpToDot()` and
returns 0 without calling `cleanAndSaveModule`. -/
theorem dump_dg_only_does_not_slice (c : CommandLine) (o : SlicerOptions) (w : Environment)
    (hd : c.dump_dg_only = true) :
    (main c o w).dump_dg = true
      ∧ (∀ r, Event.slice r ∉ (main c o w).trace)
      ∧ (Event.buildDG true ∈ (main c o w).trace →
          ∀ ns, Event.mark ns true ∈ (main c o w).trace →
            ns ≠ [] ∧ Event.dumpToDot none ∈ (main c o w).trace
            ∧ (main c o w).exit = 0
            ∧ ∀ v r, Event.cleanAndSaveModule v r ∉ (main c o w).trace) := by
  rcases main_cases c o w with ⟨h, hm⟩ | ⟨h, hm⟩ | ⟨h, hm⟩ | ⟨h, hm⟩ | ⟨h, hm⟩ | ⟨h, hm⟩
    | ⟨h, hm⟩ | ⟨h, hm⟩ | ⟨h, hm⟩ | ⟨h, hm⟩ | ⟨h, hm⟩ <;>
  first
  | (simp [hd] at h; done)
  | (simp only [hm]
     simp [pathToWriter, pathToCriteria, pathToDump, maybe_print_statistics,
       annotateIfAsked, h, hd] <;>
     (try split_ifs at * <;> simp_all))

theorem dump_dg_only_does_not_slice_witness :
    (main (exampleCommandLine false false true) exampleOptions
        (exampleEnvironment true true [3] true true true)).exit = 0 :=
  ((dump_dg_only_does_not_slice (exampleCommandLine false false true) exampleOptions
    (exampleEnvironment true true [3] true true true) (by decide)).2.2
      (by decide) [3] (by decide)).2.2.1

/-! ## `parseAnnotationOptions` -/

/-- C9: `parseAnnotationOptions` yields no flag for the empty string and
otherwise exactly the flags of the recognised elements of the split list: each
flag is set iff one of its words occurs, an unrecognised word changes nothing,
and two lists with the same elements give the same result. -/
theorem parseAnnotationOptions_flags (splitList : String → List String) (K : AnnotationOptsT)
    (hK : K.Independent) :
    parseAnnotationOptions splitList K "" = 0
    ∧ (∀ annot, annot ≠ "" →
        parseAnnotationOptions splitList K annot
          = (splitList annot).foldl (parseAnnotationOption K) 0)
    ∧ (∀ ts : List String,
        (hasFlag (ts.foldl (parseAnnotationOption K) 0) K.ANNOTATE_DD ↔ "dd" ∈ ts)
        ∧ (hasFlag (ts.foldl (parseAnnotationOption K) 0) K.ANNOTATE_CD
            ↔ "cd" ∈ ts ∨ "cda" ∈ ts)
        ∧ (hasFlag (ts.foldl (parseAnnotationOption K) 0) K.ANNOTATE_PTR ↔ "pta" ∈ ts)
        ∧ (hasFlag (ts.foldl (parseAnnotationOption K) 0) K.ANNOTATE_MEMORYACC
            ↔ "memacc" ∈ ts)
        ∧ (hasFlag (ts.foldl (parseAnnotationOption K) 0) K.ANNOTATE_SLICE
            ↔ "slice" ∈ ts ∨ "sl" ∈ ts ∨ "slicer" ∈ ts)
        ∧ (hasFlag (ts.foldl (parseAnnotationOption K) 0) K.ANNOTATE_DEF
            ↔ "dda" ∈ ts ∨ "du" ∈ ts))
    ∧ (∀ (ts : List String) (i : Nat),
        (ts.foldl (parseAnnotationOption K) 0).testBit i = true
          ↔ ∃ t ∈ ts, (flagOf K t).testBit i = true)
    ∧ (∀ opts t, t ∉ ["dd", "cd", "cda", "dda", "du", "pta", "memacc", "slice", "sl", "slicer"] →
        parseAnnotationOption K opts t = opts)
    ∧ (∀ ts us : List String, (∀ t, t ∈ ts ↔ t ∈ us) →
        ts.foldl (parseAnnotationOption K) 0 = us.foldl (parseAnnotationOption K) 0) := by
  refine ⟨?_, ?_, ?_, ?_, ?_, ?_⟩
  · simp [parseAnnotationOptions, String.isEmpty_iff]
  · intro annot h
    have : annot.isEmpty = false := by
      cases hh : annot.isEmpty
      · rfl
      · exact absurd ((String.isEmpty_iff annot).1 hh) h
    simp [parseAnnotationOptions, this]
  · intro ts
    simp only [hasFlag_foldl]
    refine ⟨?_, ?_, ?_, ?_, ?_, ?_⟩
    · simp [(hasFlag_flagOf K hK _).1]
    · simp [(hasFlag_flagOf K hK _).2.1, and_or_left, exists_or]
    · simp [(hasFlag_flagOf K hK _).2.2.1]
    · simp [(hasFlag_flagOf K hK _).2.2.2.1]
    · simp [(hasFlag_flagOf K hK _).2.2.2.2.1, and_or_left, exists_or]
    · simp [(hasFlag_flagOf K hK _).2.2.2.2.2, and_or_left, exists_or]
  · intro ts i
    simp [testBit_foldl_parseAnnotationOption]
  · intro opts t ht
    simp at ht
    simp [parseAnnotationOption, ht]
  · intro ts us h
    apply Nat.eq_of_testBit_eq
    intro i
    simp only [testBit_foldl_parseAnnotationOption]
    congr 1
    rw [Bool.eq_iff_iff]
    simp only [List.any_eq_true]
    constructor
    · rintro ⟨t, ht, hb⟩
      exact ⟨t, (h t).1 ht, hb⟩
    · rintro ⟨t, ht, hb⟩
      exact ⟨t, (h t).2 ht, hb⟩

theorem parseAnnotationOptions_flags_witness :
    hasFlag (["zz", "dd"].foldl (parseAnnotationOption exampleFlags) 0)
      exampleFlags.ANNOTATE_DD :=
  ((parseAnnotationOptions_flags (fun s => s.splitOn ",") exampleFlags
    (by unfold AnnotationOptsT.Independent; decide)).2.2.1 ["zz", "dd"]).1.2 (by decide)

/-! ## `LLVMDataDependenceAnalysis`: preconditions and queries -/

/-- C6: `run()` stops at an assertion, without calling `DDA->run()`, when the
builder is null, the DDA is null or `getRoot()` is null; when all three are
present it calls `DDA->run()` exactly once and returns. -/
theorem run_asserts_its_preconditions (a : LLVMDataDependenceAnalysis) :
    ((a.builder = none ∨ a.DDA = none ∨ a.getRoot = .ok none) →
        ∃ cond, a.run = ⟨[], .error (.assertion cond)⟩)
    ∧ (∀ b d r, a.builder = some b → a.DDA = some d → a.getRoot = .ok (some r) →
        a.run = ⟨[Call.DDA_run], .ok { a with DDA := some d.run }⟩) := by
  constructor
  · rintro (h | h | h)
    · exact ⟨"builder", by simp [LLVMDataDependenceAnalysis.run, h]⟩
    · cases hb : a.builder
      · exact ⟨"builder", by simp [LLVMDataDependenceAnalysis.run, hb]⟩
      · exact ⟨"DDA", by simp [LLVMDataDependenceAnalysis.run, h, hb]⟩
    · cases hb : a.builder
      · exact ⟨"builder", by simp [LLVMDataDependenceAnalysis.run, hb]⟩
      · cases hd : a.DDA
        · exact ⟨"DDA", by simp [LLVMDataDependenceAnalysis.run, hd, hb]⟩
        · exact ⟨"getRoot()", by simp [LLVMDataDependenceAnalysis.run, hd, hb, h]⟩
  · intro b d r hb hd hr
    simp [LLVMDataDependenceAnalysis.run, hb, hd, hr]

theorem run_asserts_its_preconditions_witness :
    (exampleAnalysis.run).calls = [Call.DDA_run] :=
  congrArg Called.calls ((run_asserts_its_preconditions exampleAnalysis).2 () exampleDDA
    exampleStore rfl rfl rfl)

/-- C7: on an object on which `run()` has not completed, no `getDefinitions`
overload returns a result, and with the underlying analysis present each one
stops at a precondition failure. -/
theorem getDefinitions_before_run (a : LLVMDataDependenceAnalysis)
    (h : a.hasRun = false) :
    (∀ use, ∃ f, a.getDefinitions use = .error f)
    ∧ (∀ loc mem off len, ∃ f, a.getDefinitionsAt loc mem off len = .error f)
    ∧ (∀ val, ∃ f, a.getDefinitionsOfValue val = .error f)
    ∧ (a.DDA ≠ none →
        (∀ use, a.getDefinitions use = .error .contractViolation)
        ∧ (∀ loc mem off len, a.getDefinitionsAt loc mem off len = .error .contractViolation)
        ∧ (∀ val, ∃ f, a.getDefinitionsOfValue val = .error f ∧ f.isPrecondition = true)) := by
  have hu : ∀ use, ∃ f, a.getDefinitions use = .error f := by
    intro use
    cases hd : a.DDA with
    | none => exact ⟨.nullDereference, by simp [LLVMDataDependenceAnalysis.getDefinitions, hd]⟩
    | some d =>
      have hc : d.converged = false := by simpa [LLVMDataDependenceAnalysis.hasRun, hd] using h
      exact ⟨.contractViolation, by
        simp [LLVMDataDependenceAnalysis.getDefinitions, hd,
          DataDependenceAnalysis.getDefinitions, hc]⟩
  refine ⟨hu, ?_, ?_, ?_⟩
  · intro loc mem off len
    cases hd : a.DDA with
    | none => exact ⟨.nullDereference, by simp [LLVMDataDependenceAnalysis.getDefinitionsAt, hd]⟩
    | some d =>
      have hc : d.converged = false := by simpa [LLVMDataDependenceAnalysis.hasRun, hd] using h
      exact ⟨.contractViolation, by
        simp [LLVMDataDependenceAnalysis.getDefinitionsAt, hd,
          DataDependenceAnalysis.getDefinitionsAt, hc]⟩
  · intro val
    cases hn : a.getNode val with
    | none =>
      exact ⟨.assertion "node", by simp [LLVMDataDependenceAnalysis.getDefinitionsOfValue, hn]⟩
    | some nd =>
      obtain ⟨f, hf⟩ := hu nd
      exact ⟨f, by simp [LLVMDataDependenceAnalysis.getDefinitionsOfValue, hn, hf]⟩
  · intro hne
    cases hd : a.DDA with
    | none => exact absurd hd hne
    | some d =>
      have hc : d.converged = false := by simpa [LLVMDataDependenceAnalysis.hasRun, hd] using h
      have hu2 : ∀ use, a.getDefinitions use = .error .contractViolation := by
        intro use
        simp [LLVMDataDependenceAnalysis.getDefinitions, hd,
          DataDependenceAnalysis.getDefinitions, hc]
      refine ⟨hu2, ?_, ?_⟩
      · intro loc mem off len
        simp [LLVMDataDependenceAnalysis.getDefinitionsAt, hd,
          DataDependenceAnalysis.getDefinitionsAt, hc]
      · intro val
        cases hn : a.getNode val with
        | none =>
          exact ⟨.assertion "node",
            by simp [LLVMDataDependenceAnalysis.getDefinitionsOfValue, hn], rfl⟩
        | some nd =>
          exact ⟨.contractViolation,
            by simp [LLVMDataDependenceAnalysis.getDefinitionsOfValue, hn, hu2], rfl⟩

theorem getDefinitions_before_run_witness :
    exampleAnalysis.getDefinitions exampleLoad = .error .contractViolation :=
  ((getDefinitions_before_run exampleAnalysis rfl).2.2.2 (by simp [exampleAnalysis])).1
    exampleLoad

/-- C10: `isUse` and `isDef` are decided by the node of the value: `isUse` holds
iff the node exists and has a use, `isDef` iff it exists and has a weak or a
strong definition; without a node both are false, and `getDefinitions(val)`
stops at its assertion, while with a node it is `getDefinitions` of that node. -/
theorem isUse_isDef_by_node (a : LLVMDataDependenceAnalysis) (val : Nat) :
    (a.isUse val = true ↔ ∃ nd, a.getNode val = some nd ∧ nd.uses ≠ [])
    ∧ (a.isDef val = true ↔
        ∃ nd, a.getNode val = some nd ∧ (nd.defines ≠ [] ∨ nd.overwrites ≠ []))
    ∧ (a.getNode val = none →
        a.isUse val = false ∧ a.isDef val = false
        ∧ a.getDefinitionsOfValue val = .error (.assertion "node"))
    ∧ (∀ nd, a.getNode val = some nd →
        a.getDefinitionsOfValue val = a.getDefinitions nd) := by
  refine ⟨?_, ?_, ?_, ?_⟩
  · cases hn : a.getNode val <;> simp [LLVMDataDependenceAnalysis.isUse, hn]
  · cases hn : a.getNode val <;> simp [LLVMDataDependenceAnalysis.isDef, hn]
  · intro hn
    simp [LLVMDataDependenceAnalysis.isUse, LLVMDataDependenceAnalysis.isDef,
      LLVMDataDependenceAnalysis.getDefinitionsOfValue, hn]
  · intro nd hn
    simp [LLVMDataDependenceAnalysis.getDefinitionsOfValue, hn]

theorem isUse_isDef_by_node_witness :
    exampleAnalysis.isUse 12 = false :=
  ((isUse_isDef_by_node exampleAnalysis 12).2.2.1 (by decide)).1

end LLVMSlicer
